import Mathlib

/-!
# Verification of the harfpy handle-wrapping layer

A shallow embedding of the lifetime-management and boundary-conversion code of
`harfbuzz.py` (the harfpy binding to the HarfBuzz shaping library), together
with proofs about it.  Each definition is translated from the named function of
`harfbuzz.py`; foreign (C-library) calls are recorded as explicit events or
supplied as oracle parameters, since their behaviour lives outside this
repository.

Conventions:
* a foreign handle (a `ct.c_void_p` value in the source) is `Option Nat`:
  `none` is Python `None`, i.e. the NULL pointer, `some a` a nonzero address;
* Python exceptions become `Except PyErr`;
* machine reals crossing the boundary are modelled as `ℚ`; every value this
  code actually converts (`n / 64` for a 32-bit `n`) is exactly representable
  in a double, so the rational model is exact.
-/

/-- The Python exception classes raised by the code under study. -/
inductive PyErr where
  | TypeError
  | ValueError
  | RuntimeError
  | IndexError
  deriving DecidableEq, Repr

/-- A foreign handle value as seen from Python across `ctypes`:
`none` is Python `None` (the NULL pointer), `some a` a machine address. -/
abbrev Handle := Option Nat

/-- Identity of a host-side wrapper object (`id()` of the Python object). -/
abbrev WrapperId := Nat

/-- Python's built-in `round` on an exact value: round to nearest integer,
ties to even (banker's rounding).  Used by `HB.to_position_t`. -/
def pyRound (x : ℚ) : ℤ :=
  if x - ⌊x⌋ < 1 / 2 then ⌊x⌋
  else if 1 / 2 < x - ⌊x⌋ then ⌊x⌋ + 1
  else if 2 ∣ ⌊x⌋ then ⌊x⌋ else ⌊x⌋ + 1

namespace HB

/-- `HB.to_position_t = lambda x : round(x * 64)` (harfbuzz.py line 65). -/
def to_position_t (x : ℚ) : ℤ := pyRound (x * 64)

/-- `HB.from_position_t = lambda x : x / 64` (harfbuzz.py line 66); the
argument supplied by the library is a `position_t` integer. -/
def from_position_t (x : ℚ) : ℚ := x / 64

/-- `HB.TAG(c1, c2, c3, c4)` (harfbuzz.py lines 82-93), four-argument form:
`c1 << 24 | c2 << 16 | c3 << 8 | c4`. -/
def TAG (c1 c2 c3 c4 : Nat) : Nat :=
  c1 <<< 24 ||| c2 <<< 16 ||| c3 <<< 8 ||| c4

/-- `HB.TAG(b)` one-argument form: unpacks a length-4 bytes value into the
four byte arguments; a value of any other length fails to unpack. -/
def TAG_bytes (b : List Nat) : Except PyErr Nat :=
  match b with
  | [c1, c2, c3, c4] => Except.ok (TAG c1 c2 c3 c4)
  | _ => Except.error PyErr.ValueError

/-- `HB.UNTAG(tag)` (harfbuzz.py lines 95-103) with `printable = False`:
the tuple `(tag >> 24 & 255, tag >> 16 & 255, tag >> 8 & 255, tag & 255)`. -/
def UNTAG (tag : Nat) : Nat × Nat × Nat × Nat :=
  (tag >>> 24 &&& 255, tag >>> 16 &&& 255, tag >>> 8 &&& 255, tag &&& 255)

/-- `HB.UNTAG(tag, True)`: the same four bytes returned as a bytes object. -/
def UNTAG_printable (tag : Nat) : List Nat :=
  [tag >>> 24 &&& 255, tag >>> 16 &&& 255, tag >>> 8 &&& 255, tag &&& 255]

/-- `HB.UNICODE_MAX_DECOMPOSITION_LEN = 18 + 1` (harfbuzz.py line 473). -/
def UNICODE_MAX_DECOMPOSITION_LEN : Nat := 18 + 1

end HB

/-! ## The handle registry

Each wrapped resource class of harfbuzz.py (`UnicodeFuncs`, `Blob`, `Buffer`,
`Face`, `Font`, `FontFuncs`, `ShapePlan`) carries two class-level
`WeakValueDictionary` caches, `_instances` (handle → wrapper) and `_ud_refs`
(handle → `UserDataDict`), and a `__new__` whose body is identical across the
classes apart from the foreign destroy routine called and the extra attributes
initialised (`Face`, `Font` and `FontFuncs` additionally receive an
`autoscale` flag, which does not touch the registry).  `wrapper_new` below is
that shared body, e.g. `Blob.__new__` (harfbuzz.py lines 2244-2264),
`UnicodeFuncs.__new__` (lines 1804-1838), `Buffer.__new__` (lines 2493-2515).

A `WeakValueDictionary` entry is present exactly while its wrapper is alive,
so liveness of a wrapper for a handle is modelled as presence in `instances`.
The `self._hbobj` attribute of each live wrapper is the `hbobjOf` map; for a
wrapper stored under key `h` it equals `h` (it is assigned from the key at
construction and only ever cleared by `__del__`, which cannot have run on a
wrapper still present in the weak dictionary), so the `else` branch's
`destroy(self._hbobj)` is recorded as a destroy of the lookup key. -/

/-- State of one resource class's registry, together with the trace of
foreign destroy calls issued by its `__new__`. -/
structure Registry where
  /-- the `_instances` weak dictionary: live wrappers keyed by handle -/
  instances : List (Handle × WrapperId)
  /-- the keys of the `_ud_refs` weak dictionary -/
  udRefs : List Handle
  /-- the `_hbobj` attribute of each live wrapper -/
  hbobjOf : List (WrapperId × Handle)
  /-- allocator for fresh wrapper object identities -/
  nextId : WrapperId
  /-- foreign destroy calls issued so far (argument of each call) -/
  destroys : List Handle
  deriving DecidableEq, Repr

/-- A registry with no live wrappers. -/
def emptyRegistry : Registry := ⟨[], [], [], 0, []⟩

/-- The shared `__new__` body: look the handle up in `_instances`; if absent,
allocate a fresh wrapper, store its `_hbobj` and `_user_data`, and register
it; if present, call the foreign destroy routine once on the existing
wrapper's `_hbobj` ("lose extra reference created by caller") and return the
existing wrapper. -/
def wrapper_new (st : Registry) (hbobj : Handle) : WrapperId × Registry :=
  match st.instances.lookup hbobj with
  | some w => (w, { st with destroys := st.destroys ++ [hbobj] })
  | none =>
      let w := st.nextId
      let udRefs := if st.udRefs.contains hbobj then st.udRefs
                    else st.udRefs ++ [hbobj]
      (w, { st with
              instances := (hbobj, w) :: st.instances
              hbobjOf := (w, hbobj) :: st.hbobjOf
              udRefs := udRefs
              nextId := st.nextId + 1 })

/-- `Buffer.__new__(celf, _hbobj)` (harfbuzz.py lines 2493-2515).  Its body
contains no `raise` statement and no validity check of `_hbobj`, so the
embedding always returns `ok`; the `Except` layer makes the absence of an
error path explicit. -/
def Buffer_new (st : Registry) (hbobj : Handle) : Except PyErr (WrapperId × Registry) :=
  Except.ok (wrapper_new st hbobj)

/-- `Buffer.create()` (harfbuzz.py lines 2524-2529):
`Buffer(hb.hb_buffer_create())`.  The foreign `hb_buffer_create` result is
the parameter `createResult`; a NULL return crosses ctypes as `None`. -/
def Buffer_create (createResult : Handle) (st : Registry) :
    Except PyErr (WrapperId × Registry) :=
  Buffer_new st createResult

/-! ## Destructors and the shutdown hook

Every wrapper class with a destructor (`UnicodeFuncs`, `Blob`, `Buffer`,
`Face`, `Font`, `FontFuncs`, `Set`, `ShapePlan`) has the same `__del__` body,
e.g. `Blob.__del__` (harfbuzz.py lines 2266-2271):

    if hb != None and self._hbobj != None :
        hb.hb_blob_destroy(self._hbobj)
        self._hbobj = None
-/

/-- The state a `__del__` run can see and change: whether the module-level
`hb` library object is loaded, the wrapper's own `_hbobj` attribute, and the
number of foreign destroy calls this wrapper has issued. -/
structure DelState where
  hbLoaded : Bool
  hbobj : Handle
  destroys : Nat
  deriving DecidableEq, Repr

/-- The shared `__del__` body. -/
def wrapper_del (s : DelState) : DelState :=
  if s.hbLoaded = true ∧ s.hbobj ≠ none then
    { s with hbobj := none, destroys := s.destroys + 1 }
  else s

/-- The eight wrapper classes listed in `_atexit` (harfbuzz.py line 5325). -/
inductive HbClass where
  | unicodeFuncs
  | blob
  | buffer
  | face
  | font
  | fontFuncs
  | set
  | shapePlan
  deriving DecidableEq, Repr

/-- Class-level state: whether each class still has its `__del__` method. -/
structure ClassTable where
  delEnabled : HbClass → Bool

/-- `delattr(cls, "__del__")` for one class. -/
def delattr_del (c : HbClass) (t : ClassTable) : ClassTable :=
  ⟨fun c2 => if c2 = c then false else t.delEnabled c2⟩

/-- `_atexit()` (harfbuzz.py lines 5324-5329): removes `__del__` from each of
the eight classes in turn. -/
def hb_atexit (t : ClassTable) : ClassTable :=
  [HbClass.unicodeFuncs, HbClass.blob, HbClass.buffer, HbClass.face,
    HbClass.font, HbClass.fontFuncs, HbClass.set, HbClass.shapePlan].foldl
    (fun acc c => delattr_del c acc) t

/-- Garbage collection of a wrapper of class `c`: Python runs the class's
`__del__` only if the class still has one. -/
def collect (t : ClassTable) (c : HbClass) (w : DelState) : DelState :=
  if t.delEnabled c = true then wrapper_del w else w

/-! ## Typed entry points

`shape` and `shape_full` (harfbuzz.py lines 5034-5060), `ShapePlan.create`
(lines 5243-5267) and `ShapePlan.execute` (lines 5270-5287) begin with
`isinstance` checks and raise `TypeError` before anything crosses the foreign
boundary.  Arguments are embedded as runtime-typed Python values; the foreign
calls an execution performs are returned as an explicit trace.  The feature
and shaper-list arguments only drive host-side argument marshalling between
the check and the foreign call (the default `None` path is modelled) and are
omitted; the foreign results (`hb_shape_plan_create*`'s handle,
`hb_shape_plan_execute`'s status) are oracle parameters. -/

/-- A Python value as classified by the `isinstance` checks of the shaping
entry points. -/
inductive PyVal where
  | font (hbobj : Handle)
  | buffer (hbobj : Handle)
  | face (hbobj : Handle)
  | segmentProperties
  | other
  deriving DecidableEq, Repr

/-- `isinstance(v, Font)`. -/
def isinstance_Font : PyVal → Bool
  | .font _ => true
  | _ => false

/-- `isinstance(v, Buffer)`. -/
def isinstance_Buffer : PyVal → Bool
  | .buffer _ => true
  | _ => false

/-- `isinstance(v, Face)`. -/
def isinstance_Face : PyVal → Bool
  | .face _ => true
  | _ => false

/-- `isinstance(v, SegmentProperties)`. -/
def isinstance_SegmentProperties : PyVal → Bool
  | .segmentProperties => true
  | _ => false

/-- The `_hbobj` attribute of a wrapper value. -/
def PyVal.hbobj : PyVal → Handle
  | .font a => a
  | .buffer a => a
  | .face a => a
  | _ => none

/-- One foreign call of the shaping entry points, with its arguments. -/
inductive ForeignCall where
  | hb_shape (fontObj bufObj : Handle)
  | hb_shape_full (fontObj bufObj : Handle)
  | hb_shape_plan_create (faceObj : Handle)
  | hb_shape_plan_create_cached (faceObj : Handle)
  | hb_shape_plan_execute (planObj fontObj bufObj : Handle)
  deriving DecidableEq, Repr

/-- `shape(font, buffer, features = None)` (harfbuzz.py lines 5034-5047):
the result is the raised error (if any) paired with the trace of foreign
calls performed. -/
def shape (font buffer : PyVal) : Except PyErr Unit × List ForeignCall :=
  if ¬(isinstance_Font font = true) ∨ ¬(isinstance_Buffer buffer = true) then
    (Except.error PyErr.TypeError, [])
  else
    (Except.ok (), [ForeignCall.hb_shape font.hbobj buffer.hbobj])

/-- `shape_full(font, buffer, features = None, shaper_list = None)`
(harfbuzz.py lines 5049-5060). -/
def shape_full (font buffer : PyVal) : Except PyErr Unit × List ForeignCall :=
  if ¬(isinstance_Font font = true) ∨ ¬(isinstance_Buffer buffer = true) then
    (Except.error PyErr.TypeError, [])
  else
    (Except.ok (), [ForeignCall.hb_shape_full font.hbobj buffer.hbobj])

/-- `ShapePlan.create(face, props, user_features, shaper_list, cached)`
(harfbuzz.py lines 5243-5267): after the two `isinstance` checks it calls
`hb_shape_plan_create` or `hb_shape_plan_create_cached` (foreign result:
`hres`) and wraps the result through `ShapePlan.__new__` into the class
registry `st`. -/
def ShapePlan_create (face props : PyVal) (cached : Bool) (hres : Handle)
    (st : Registry) : Except PyErr WrapperId × List ForeignCall × Registry :=
  if ¬(isinstance_Face face = true) then
    (Except.error PyErr.TypeError, [], st)
  else if ¬(isinstance_SegmentProperties props = true) then
    (Except.error PyErr.TypeError, [], st)
  else
    let call := if cached then ForeignCall.hb_shape_plan_create_cached face.hbobj
                else ForeignCall.hb_shape_plan_create face.hbobj
    let r := wrapper_new st hres
    (Except.ok r.1, [call], r.2)

/-- `ShapePlan.execute(self, font, buffer, features)` (harfbuzz.py lines
5270-5287): after the `isinstance` check it calls `hb_shape_plan_execute`
(foreign result: `r`) and returns `r != 0`. -/
def ShapePlan_execute (plan : Handle) (font buffer : PyVal) (r : Int) :
    Except PyErr Bool × List ForeignCall :=
  if ¬(isinstance_Font font = true) ∨ ¬(isinstance_Buffer buffer = true) then
    (Except.error PyErr.TypeError, [])
  else
    (Except.ok (r != 0),
      [ForeignCall.hb_shape_plan_execute plan font.hbobj buffer.hbobj])

/-! ## Allocation-failure reporting

`Buffer.check_alloc` (harfbuzz.py lines 2563-2568) turns the foreign
`hb_buffer_allocation_successful` status into a `RuntimeError`; `Buffer.add`
(lines 2570-2574) and `Buffer.add_codepoints` (lines 2576-2581) call it after
the content-adding foreign call.  `Set.to_hb` (lines 5104-5121) checks
`hb_set_allocation_successful` after every `hb_set_add`.  The foreign status
values are oracle parameters. -/

/-- A foreign call made by the buffer content-adding methods. -/
inductive BufferCall where
  | hb_buffer_add (bufObj : Handle) (codepoint cluster : Nat)
  | hb_buffer_add_codepoints (bufObj : Handle) (text : List Nat)
      (text_length item_offset item_length : Nat)
  deriving DecidableEq, Repr

/-- `Buffer.check_alloc(self)`: raise `RuntimeError` iff the foreign
allocation-success query (result: `allocationSuccessful`) returned 0. -/
def Buffer_check_alloc (allocationSuccessful : Int) : Except PyErr Unit :=
  if allocationSuccessful = 0 then Except.error PyErr.RuntimeError
  else Except.ok ()

/-- `Buffer.add(self, codepoint, cluster)`: foreign `hb_buffer_add`, then
`check_alloc` on the query result `allocationSuccessful`. -/
def Buffer_add (bufObj : Handle) (codepoint cluster : Nat)
    (allocationSuccessful : Int) : Except PyErr Unit × List BufferCall :=
  (Buffer_check_alloc allocationSuccessful,
    [BufferCall.hb_buffer_add bufObj codepoint cluster])

/-- `Buffer.add_codepoints(self, text, text_length, item_offset,
item_length)`: marshal `text`, foreign `hb_buffer_add_codepoints`, then
`check_alloc` on the query result `allocationSuccessful`. -/
def Buffer_add_codepoints (bufObj : Handle) (text : List Nat)
    (text_length item_offset item_length : Nat)
    (allocationSuccessful : Int) : Except PyErr Unit × List BufferCall :=
  (Buffer_check_alloc allocationSuccessful,
    [BufferCall.hb_buffer_add_codepoints bufObj text text_length item_offset
      item_length])

/-- An element of the Python set passed to `Set.to_hb`, as the
`isinstance(elt, int)` check sees it. -/
inductive PyElt where
  | int (n : ℤ)
  | other
  deriving DecidableEq, Repr

/-- The element check of `Set.to_hb`: `isinstance(elt, int) and elt >= 0`. -/
def validCodepoint : PyElt → Bool
  | .int n => decide (0 ≤ n)
  | .other => false

/-- The loop body of `Set.to_hb`: for each element, `TypeError` unless it is
a nonnegative int, then foreign `hb_set_add`, then `RuntimeError` if the
foreign `hb_set_allocation_successful` query returns 0.  `allocOk k` is the
query's result after the `(k+1)`-th insertion. -/
def Set_to_hb_loop (elts : List PyElt) (allocOk : Nat → Int) (k : Nat) :
    Except PyErr Unit :=
  match elts with
  | [] => Except.ok ()
  | e :: rest =>
      match e with
      | .int n =>
          if n < 0 then Except.error PyErr.TypeError
          else if allocOk k = 0 then Except.error PyErr.RuntimeError
          else Set_to_hb_loop rest allocOk (k + 1)
      | .other => Except.error PyErr.TypeError

/-- `Set.to_hb(pyset = None)` (harfbuzz.py lines 5104-5121): foreign
`hb_set_create`, then the insertion loop over the elements (in iteration
order `elts`). -/
def Set_to_hb (pyset : Option (List PyElt)) (allocOk : Nat → Int) :
    Except PyErr Unit :=
  match pyset with
  | none => Except.ok ()
  | some elts => Set_to_hb_loop elts allocOk 0

/-! ## The decompose-compatibility callback adapter

`def_wrap_decompose_compatibility_func` (harfbuzz.py lines 2159-2184) adapts
a host callback for the foreign function pointer: the host result (`None` or
a sequence of codepoints) is range-checked against
`UNICODE_MAX_DECOMPOSITION_LEN` before anything is copied into the foreign
output buffer `c_decomposed`. -/

/-- The copy loop `for i in range(len(result)) : c_decomposed[i] = result[i]`,
starting at index `i`. -/
def copySeq : List Nat → Nat → List Nat → List Nat
  | [], _, buf => buf
  | v :: rest, i, buf => copySeq rest (i + 1) (buf.set i v)

/-- The body of the adapted `wrap_decompose_compatibility_func`: `result` is
the host callback's return value, `c_decomposed` the foreign output buffer
(of capacity `UNICODE_MAX_DECOMPOSITION_LEN`); returns the raised error or
the foreign return value, paired with the buffer contents afterwards. -/
def wrap_decompose_compatibility_func (result : Option (List Nat))
    (c_decomposed : List Nat) : Except PyErr Nat × List Nat :=
  let r := match result with
           | none => ([] : List Nat)
           | some l => l
  if r.length > HB.UNICODE_MAX_DECOMPOSITION_LEN then
    (Except.error PyErr.IndexError, c_decomposed)
  else
    (Except.ok r.length, copySeq r 0 c_decomposed)

/-! ## Supporting lemmas -/

/-- Bitwise or of a shifted value with a small value is addition. -/
theorem lor_two_pow_mul_add {n b : Nat} (a : Nat) (hlt : b < 2 ^ n) :
    2 ^ n * a ||| b = 2 ^ n * a + b :=
  (Nat.mul_add_lt_is_or hlt a).symm

/-- For bytes, `HB.TAG` is plain positional arithmetic. -/
theorem TAG_eq_sum (c1 c2 c3 c4 : Nat) (h1 : c1 < 256) (h2 : c2 < 256)
    (h3 : c3 < 256) (h4 : c4 < 256) :
    HB.TAG c1 c2 c3 c4 = c1 * 2 ^ 24 + c2 * 2 ^ 16 + c3 * 2 ^ 8 + c4 := by
  unfold HB.TAG
  rw [Nat.shiftLeft_eq, Nat.shiftLeft_eq, Nat.shiftLeft_eq]
  have e1 : c1 * 2 ^ 24 ||| c2 * 2 ^ 16 = c1 * 2 ^ 24 + c2 * 2 ^ 16 := by
    rw [show c1 * 2 ^ 24 = 2 ^ 24 * c1 from Nat.mul_comm _ _]
    exact lor_two_pow_mul_add c1 (by omega)
  have e2 : c1 * 2 ^ 24 + c2 * 2 ^ 16 ||| c3 * 2 ^ 8
      = c1 * 2 ^ 24 + c2 * 2 ^ 16 + c3 * 2 ^ 8 := by
    rw [show c1 * 2 ^ 24 + c2 * 2 ^ 16 = 2 ^ 16 * (c1 * 2 ^ 8 + c2) from by ring,
      lor_two_pow_mul_add _ (by omega)]
  have e3 : c1 * 2 ^ 24 + c2 * 2 ^ 16 + c3 * 2 ^ 8 ||| c4
      = c1 * 2 ^ 24 + c2 * 2 ^ 16 + c3 * 2 ^ 8 + c4 := by
    rw [show c1 * 2 ^ 24 + c2 * 2 ^ 16 + c3 * 2 ^ 8
        = 2 ^ 8 * (c1 * 2 ^ 16 + c2 * 2 ^ 8 + c3) from by ring,
      lor_two_pow_mul_add _ (by omega)]
  rw [e1, e2, e3]

/-- Masking with 255 is reduction mod 2^8. -/
theorem and_255_eq_mod (x : Nat) : x &&& 255 = x % 2 ^ 8 := by
  rw [show (255 : Nat) = 2 ^ 8 - 1 from rfl]
  exact Nat.and_pow_two_sub_one_eq_mod x 8

/-- `pyRound` is the identity on integers. -/
theorem pyRound_intCast (n : ℤ) : pyRound (n : ℚ) = n := by
  unfold pyRound
  rw [Int.floor_intCast, sub_self]
  norm_num

/-- Writing at indices `≥ i + 1` commutes with the head of the buffer. -/
theorem copySeq_cons (r : List Nat) :
    ∀ (i b : Nat) (bs : List Nat),
      copySeq r (i + 1) (b :: bs) = b :: copySeq r i bs := by
  induction r with
  | nil => intro i b bs; rfl
  | cons v rest ih =>
      intro i b bs
      show copySeq rest (i + 2) (b :: bs.set i v) = b :: copySeq rest (i + 1) (bs.set i v)
      exact ih (i + 1) b (bs.set i v)

/-- The copy loop started at index 0 overwrites exactly the first
`r.length` entries of the buffer. -/
theorem copySeq_write (r : List Nat) :
    ∀ buf : List Nat, r.length ≤ buf.length →
      copySeq r 0 buf = r ++ buf.drop r.length := by
  induction r with
  | nil => intro buf _; simp [copySeq]
  | cons v rest ih =>
      intro buf hlen
      match buf with
      | [] => simp at hlen
      | b :: bs =>
          show copySeq rest 1 (v :: bs) = v :: rest ++ List.drop rest.length bs
          rw [copySeq_cons rest 0 v bs]
          simp only [List.length_cons, Nat.add_le_add_iff_right] at hlen
          rw [ih bs hlen]
          rfl

/-- The `Set.to_hb` insertion loop over valid codepoints raises
`RuntimeError` exactly when some executed allocation query returns 0. -/
theorem Set_to_hb_loop_error_iff (elts : List PyElt) (allocOk : Nat → Int)
    (hval : ∀ e ∈ elts, validCodepoint e = true) :
    ∀ k : Nat,
      (Set_to_hb_loop elts allocOk k = Except.error PyErr.RuntimeError ↔
        ∃ j, j < elts.length ∧ allocOk (k + j) = 0) := by
  induction elts with
  | nil =>
      intro k
      simp [Set_to_hb_loop]
  | cons e rest ih =>
      intro k
      have he : validCodepoint e = true := hval e (List.mem_cons_self e rest)
      have hrest : ∀ x ∈ rest, validCodepoint x = true :=
        fun x hx => hval x (List.mem_cons_of_mem e hx)
      match e with
      | .other => simp [validCodepoint] at he
      | .int n =>
          have hn : ¬ n < 0 := by
            simp only [validCodepoint, decide_eq_true_eq] at he
            omega
          show (if n < 0 then Except.error PyErr.TypeError
            else if allocOk k = 0 then Except.error PyErr.RuntimeError
            else Set_to_hb_loop rest allocOk (k + 1)) = _ ↔ _
          rw [if_neg hn]
          by_cases hk : allocOk k = 0
          · rw [if_pos hk]
            constructor
            · intro _; exact ⟨0, by simp, by simpa using hk⟩
            · intro _; rfl
          · rw [if_neg hk]
            rw [ih hrest (k + 1)]
            constructor
            · rintro ⟨j, hj, hjz⟩
              refine ⟨j + 1, by simpa using Nat.add_lt_add_right hj 1, ?_⟩
              rw [show k + (j + 1) = k + 1 + j from by omega]
              exact hjz
            · rintro ⟨j, hj, hjz⟩
              match j with
              | 0 => exact absurd (by simpa using hjz) hk
              | j + 1 =>
                  refine ⟨j, ?_, ?_⟩
                  · simpa using Nat.lt_of_add_lt_add_right hj
                  · rw [show k + 1 + j = k + (j + 1) from by omega]
                    exact hjz

/-- Iterating the shared `__del__` body once more after a run that cleared
`_hbobj` changes nothing. -/
theorem wrapper_del_idem (s : DelState) :
    wrapper_del (wrapper_del s) = wrapper_del s := by
  unfold wrapper_del
  by_cases hcond : s.hbLoaded = true ∧ s.hbobj ≠ none
  · rw [if_pos hcond]
    simp
  · rw [if_neg hcond, if_neg hcond]

/-! ## Claims -/

/-- C1: for every registry-backed resource class (UnicodeFuncs, Blob, Buffer,
Face, Font, FontFuncs, ShapePlan), whose shared `__new__` body `wrapper_new`
embeds: while a live wrapper `w` for handle `h` exists (i.e. `_instances`
maps `h` to `w`), invoking the wrapping constructor with `h` again returns
that identical wrapper, and no second distinct wrapper is produced: the
registry and the wrapper-identity allocator are unchanged. -/
theorem wrap_live_handle_identical (st : Registry) (h : Handle) (w : WrapperId)
    (hw : st.instances.lookup h = some w) :
    (wrapper_new st h).1 = w ∧
    (wrapper_new st h).2.instances = st.instances ∧
    (wrapper_new st h).2.nextId = st.nextId := by
  unfold wrapper_new
  rw [hw]
  exact ⟨rfl, rfl, rfl⟩

/-- Witness for C1: a registry holding one live wrapper (identity 0) for
handle 0x1000; re-wrapping 0x1000 returns wrapper 0 and changes nothing. -/
theorem wrap_live_handle_identical_witness :
    (wrapper_new ⟨[(some 4096, 0)], [some 4096], [(0, some 4096)], 1, []⟩
        (some 4096)).1 = 0 ∧
    (wrapper_new ⟨[(some 4096, 0)], [some 4096], [(0, some 4096)], 1, []⟩
        (some 4096)).2.instances = [(some 4096, 0)] ∧
    (wrapper_new ⟨[(some 4096, 0)], [some 4096], [(0, some 4096)], 1, []⟩
        (some 4096)).2.nextId = 1 :=
  wrap_live_handle_identical
    ⟨[(some 4096, 0)], [some 4096], [(0, some 4096)], 1, []⟩
    (some 4096) 0 (by decide)

/-- C2: for every registry-backed resource class: wrapping a handle `h` that
already has a live wrapper issues exactly one compensating foreign release
(the destroy trace grows by exactly the one call on `h`) and returns the
existing wrapper with the registry otherwise unchanged; wrapping a handle
with no live wrapper issues no release, and the new wrapper keeps the
incoming reference (its `_hbobj` is `h` and it is registered under `h`). -/
theorem wrap_release_discipline (st : Registry) (h : Handle) :
    (∀ w, st.instances.lookup h = some w →
        wrapper_new st h = (w, { st with destroys := st.destroys ++ [h] })) ∧
    (st.instances.lookup h = none →
        (wrapper_new st h).2.destroys = st.destroys ∧
        (wrapper_new st h).2.hbobjOf.lookup (wrapper_new st h).1 = some h ∧
        (wrapper_new st h).2.instances.lookup h = some (wrapper_new st h).1) := by
  constructor
  · intro w hw
    unfold wrapper_new
    rw [hw]
  · intro hn
    unfold wrapper_new
    rw [hn]
    refine ⟨rfl, ?_, ?_⟩
    · simp [List.lookup]
    · simp [List.lookup]

/-- Witness for C2: re-wrapping handle 0x1000 while wrapper 0 is live
returns wrapper 0 and appends exactly one destroy call on 0x1000. -/
theorem wrap_release_discipline_witness :
    wrapper_new ⟨[(some 4096, 0)], [some 4096], [(0, some 4096)], 1, []⟩
        (some 4096)
      = (0, ⟨[(some 4096, 0)], [some 4096], [(0, some 4096)], 1,
          [some 4096]⟩) :=
  (wrap_release_discipline
      ⟨[(some 4096, 0)], [some 4096], [(0, some 4096)], 1, []⟩
      (some 4096)).1 0 (by decide)

/-- C3 counterexample: the claim says wrapping a null/failure handle raises
an error and creates no registry entry.  On the code it is false:
`Buffer.create` with a NULL foreign result (`None` across ctypes) raises
nothing — it returns a wrapper (identity 0) and the registry now holds an
entry under the null key. -/
theorem buffer_wrap_null_counterexample :
    Buffer_create none emptyRegistry
      = Except.ok (0, ⟨[(none, 0)], [none], [(0, none)], 1, []⟩) := by
  rfl

/-- C3 (amended): wrapping a null/failure handle raises no error and is not
rejected: `Buffer.__new__` performs no validity check on the incoming
handle, so when no live wrapper exists for the null handle it constructs a
wrapper around it and creates a registry entry under the null key, exactly
as for any other handle value, issuing no foreign destroy call. -/
theorem buffer_wrap_null_registers (st : Registry)
    (hnone : st.instances.lookup none = none) :
    Buffer_new st none = Except.ok (st.nextId,
      { st with
          instances := (none, st.nextId) :: st.instances
          hbobjOf := (st.nextId, none) :: st.hbobjOf
          udRefs := if st.udRefs.contains none then st.udRefs
                    else st.udRefs ++ [none]
          nextId := st.nextId + 1 }) := by
  unfold Buffer_new wrapper_new
  rw [hnone]

/-- Witness for the amended C3: wrapping the null handle into an empty
registry returns wrapper 0 and registers it under the null key. -/
theorem buffer_wrap_null_registers_witness :
    Buffer_new emptyRegistry none
      = Except.ok (0, ⟨[(none, 0)], [none], [(0, none)], 1, []⟩) :=
  buffer_wrap_null_registers emptyRegistry (by decide)

/-- C4: for every wrapper class with a destructor (UnicodeFuncs, Blob,
Buffer, Face, Font, FontFuncs, Set, ShapePlan), whose shared `__del__` body
`wrapper_del` embeds: on a wrapper holding a handle, the first run issues
exactly one foreign destroy call and clears `_hbobj` to `None`; running the
destructor any number of further times is a no-op, so the foreign reference
is released at most once no matter how often the destructor runs. -/
theorem del_releases_at_most_once (s : DelState) (a : Nat)
    (hload : s.hbLoaded = true) (hobj : s.hbobj = some a) :
    (wrapper_del s).destroys = s.destroys + 1 ∧
    (wrapper_del s).hbobj = none ∧
    (∀ n, 1 ≤ n → wrapper_del^[n] s = wrapper_del s) ∧
    (∀ n, (wrapper_del^[n] s).destroys ≤ s.destroys + 1) := by
  have hcond : s.hbLoaded = true ∧ s.hbobj ≠ none := by
    refine ⟨hload, ?_⟩
    rw [hobj]
    exact Option.some_ne_none a
  have hfirst : wrapper_del s
      = { s with hbobj := none, destroys := s.destroys + 1 } := by
    unfold wrapper_del
    rw [if_pos hcond]
  have hiter : ∀ n, 1 ≤ n → wrapper_del^[n] s = wrapper_del s := by
    intro n hn
    induction n with
    | zero => omega
    | succ m ih =>
        match m, ih with
        | 0, _ => rfl
        | m + 1, ih =>
            rw [Function.iterate_succ_apply', ih (by omega), wrapper_del_idem]
  refine ⟨by rw [hfirst], by rw [hfirst], hiter, ?_⟩
  intro n
  match n with
  | 0 => exact Nat.le_succ _
  | n + 1 =>
      rw [hiter (n + 1) (by omega), hfirst]

/-- Witness for C4: a loaded-library wrapper holding handle 0x1000 destroys
once on the first run and still only once after five runs. -/
theorem del_releases_at_most_once_witness :
    (wrapper_del ⟨true, some 4096, 0⟩).destroys = 1 ∧
    (wrapper_del^[5] (⟨true, some 4096, 0⟩ : DelState)).destroys ≤ 1 := by
  have h := del_releases_at_most_once ⟨true, some 4096, 0⟩ 4096 rfl rfl
  exact ⟨h.1, h.2.2.2 5⟩

/-- C5: once the registered atexit hook `_atexit` has run, release-on-
collection is disarmed for all eight wrapper classes: every class's
`__del__` has been removed, so collecting any wrapper of any of these
classes invokes no foreign destroy routine (the wrapper state, including
its destroy count, is untouched). -/
theorem atexit_disarms_release (t : ClassTable) (c : HbClass) (w : DelState) :
    (hb_atexit t).delEnabled c = false ∧ collect (hb_atexit t) c w = w := by
  have hdis : (hb_atexit t).delEnabled c = false := by
    cases c <;> simp [hb_atexit, delattr_del, List.foldl]
  refine ⟨hdis, ?_⟩
  unfold collect
  rw [hdis]
  simp

/-- C6: each entry point requiring specific wrapper types (`shape` and
`shape_full` require a Font and a Buffer; `ShapePlan.create` a Face and a
SegmentProperties; `ShapePlan.execute` a Font and a Buffer) raises
`TypeError` when a caller-supplied value fails the `isinstance` check,
before any foreign call is made: the foreign-call trace is empty, and for
`ShapePlan.create` no foreign reference is acquired and the class registry
is unchanged. -/
theorem typecheck_raises_before_foreign_call :
    (∀ font buffer : PyVal,
        ¬(isinstance_Font font = true) ∨ ¬(isinstance_Buffer buffer = true) →
        shape font buffer = (Except.error PyErr.TypeError, [])) ∧
    (∀ font buffer : PyVal,
        ¬(isinstance_Font font = true) ∨ ¬(isinstance_Buffer buffer = true) →
        shape_full font buffer = (Except.error PyErr.TypeError, [])) ∧
    (∀ (face props : PyVal) (cached : Bool) (hres : Handle) (st : Registry),
        ¬(isinstance_Face face = true) ∨
          ¬(isinstance_SegmentProperties props = true) →
        ShapePlan_create face props cached hres st
          = (Except.error PyErr.TypeError, [], st)) ∧
    (∀ (plan : Handle) (font buffer : PyVal) (r : Int),
        ¬(isinstance_Font font = true) ∨ ¬(isinstance_Buffer buffer = true) →
        ShapePlan_execute plan font buffer r
          = (Except.error PyErr.TypeError, [])) := by
  refine ⟨?_, ?_, ?_, ?_⟩
  · intro font buffer hbad
    unfold shape
    rw [if_pos hbad]
  · intro font buffer hbad
    unfold shape_full
    rw [if_pos hbad]
  · intro face props cached hres st hbad
    unfold ShapePlan_create
    by_cases hface : isinstance_Face face = true
    · have hprops : ¬(isinstance_SegmentProperties props = true) := by
        cases hbad with
        | inl hl => exact absurd hface hl
        | inr hr => exact hr
      rw [if_neg (not_not_intro hface), if_pos hprops]
    · rw [if_pos hface]
  · intro plan font buffer r hbad
    unfold ShapePlan_execute
    rw [if_pos hbad]

/-- Witness for C6: passing a non-wrapper value to `shape` raises
`TypeError` with no foreign call made. -/
theorem typecheck_raises_witness :
    shape PyVal.other PyVal.other = (Except.error PyErr.TypeError, []) :=
  typecheck_raises_before_foreign_call.1 PyVal.other PyVal.other
    (Or.inl (by decide))

/-- C7: foreign allocation failures are surfaced as `RuntimeError`:
`Buffer.add` and `Buffer.add_codepoints` raise `RuntimeError` exactly when
the foreign allocation-success query returns 0 after the content-adding
call (so on success no error is raised); `Set.to_hb` on a set of valid
codepoints raises `RuntimeError` exactly when a set-allocation-success
query performed after an element insertion returns 0. -/
theorem alloc_failure_raises_runtime_error :
    (∀ (bufObj : Handle) (codepoint cluster : Nat) (r : Int),
        (Buffer_add bufObj codepoint cluster r).1
          = Except.error PyErr.RuntimeError ↔ r = 0) ∧
    (∀ (bufObj : Handle) (text : List Nat) (tl off il : Nat) (r : Int),
        (Buffer_add_codepoints bufObj text tl off il r).1
          = Except.error PyErr.RuntimeError ↔ r = 0) ∧
    (∀ (elts : List PyElt) (allocOk : Nat → Int),
        (∀ e ∈ elts, validCodepoint e = true) →
        (Set_to_hb (some elts) allocOk = Except.error PyErr.RuntimeError ↔
          ∃ j, j < elts.length ∧ allocOk j = 0)) := by
  refine ⟨?_, ?_, ?_⟩
  · intro bufObj codepoint cluster r
    unfold Buffer_add Buffer_check_alloc
    by_cases hr : r = 0
    · simp [hr]
    · simp [hr]
  · intro bufObj text tl off il r
    unfold Buffer_add_codepoints Buffer_check_alloc
    by_cases hr : r = 0
    · simp [hr]
    · simp [hr]
  · intro elts allocOk hval
    have h := Set_to_hb_loop_error_iff elts allocOk hval 0
    simpa [Set_to_hb] using h

/-- Witness for C7: inserting one codepoint while the allocation query
reports failure raises `RuntimeError` from `Set.to_hb`. -/
theorem alloc_failure_raises_witness :
    Set_to_hb (some [PyElt.int 65]) (fun _ => 0)
      = Except.error PyErr.RuntimeError :=
  (alloc_failure_raises_runtime_error.2.2 [PyElt.int 65] (fun _ => 0)
      (by decide)).mpr ⟨0, by decide, rfl⟩

/-- C8: the fixed-point 16.6 boundary conversions: `to_position_t x` is
`round(x * 64)` (Python `round`, ties to even) for every value `x`;
`from_position_t n` is `n / 64` for every integer `n`; and on every integer
in the range of the 32-bit `position_t`, the host-to-foreign conversion is
a left inverse of the foreign-to-host conversion. -/
theorem position_fixed_point_conversions :
    (∀ x : ℚ, HB.to_position_t x = pyRound (x * 64)) ∧
    (∀ n : ℤ, HB.from_position_t (n : ℚ) = (n : ℚ) / 64) ∧
    (∀ n : ℤ, -(2 ^ 31) ≤ n → n < 2 ^ 31 →
        HB.to_position_t (HB.from_position_t (n : ℚ)) = n) := by
  refine ⟨fun x => rfl, fun n => rfl, fun n _ _ => ?_⟩
  unfold HB.to_position_t HB.from_position_t
  rw [div_mul_cancel₀ _ (by norm_num : (64 : ℚ) ≠ 0)]
  exact pyRound_intCast n

/-- Witness for C8: the conversions round-trip the `position_t` value
1000. -/
theorem position_fixed_point_witness :
    HB.to_position_t (HB.from_position_t ((1000 : ℤ) : ℚ)) = 1000 :=
  position_fixed_point_conversions.2.2 1000 (by norm_num) (by norm_num)

/-- C9: tag packing and unpacking round-trip for byte values: `TAG` is the
stated shift-or packing, `UNTAG` recovers the four bytes as a tuple, and
with `printable = True` the bytes form of `TAG`'s argument is recovered, so
`UNTAG(TAG(b), True) = b` for a length-4 bytes value. -/
theorem tag_untag_roundtrip (c1 c2 c3 c4 : Nat) (h1 : c1 < 256)
    (h2 : c2 < 256) (h3 : c3 < 256) (h4 : c4 < 256) :
    HB.TAG c1 c2 c3 c4 = c1 <<< 24 ||| c2 <<< 16 ||| c3 <<< 8 ||| c4 ∧
    HB.UNTAG (HB.TAG c1 c2 c3 c4) = (c1, c2, c3, c4) ∧
    HB.TAG_bytes [c1, c2, c3, c4] = Except.ok (HB.TAG c1 c2 c3 c4) ∧
    HB.UNTAG_printable (HB.TAG c1 c2 c3 c4) = [c1, c2, c3, c4] := by
  have key := TAG_eq_sum c1 c2 c3 c4 h1 h2 h3 h4
  refine ⟨rfl, ?_, rfl, ?_⟩
  · unfold HB.UNTAG
    rw [key]
    simp only [Nat.shiftRight_eq_div_pow, and_255_eq_mod, Prod.mk.injEq]
    omega
  · unfold HB.UNTAG_printable
    rw [key]
    simp only [Nat.shiftRight_eq_div_pow, and_255_eq_mod, List.cons.injEq,
      and_true]
    omega

/-- Witness for C9: the bytes of the OpenType tag "harf" round-trip. -/
theorem tag_untag_roundtrip_witness :
    HB.UNTAG (HB.TAG 104 97 114 102) = (104, 97, 114, 102) :=
  (tag_untag_roundtrip 104 97 114 102 (by decide) (by decide) (by decide)
      (by decide)).2.1

/-- C10: the adapted decompose-compatibility callback enforces the foreign
buffer's size limit of `UNICODE_MAX_DECOMPOSITION_LEN = 19` codepoints: a
`None` host result is treated as the empty sequence (nothing written,
0 returned); a host result longer than 19 raises `IndexError` with nothing
written to the foreign buffer; otherwise exactly `len(result)` codepoints
are copied into the buffer's prefix and `len(result)` is returned. -/
theorem decompose_compatibility_limit (result : Option (List Nat))
    (buf : List Nat) (hcap : HB.UNICODE_MAX_DECOMPOSITION_LEN ≤ buf.length) :
    HB.UNICODE_MAX_DECOMPOSITION_LEN = 19 ∧
    (result = none →
        wrap_decompose_compatibility_func result buf = (Except.ok 0, buf)) ∧
    (∀ r, result = some r → HB.UNICODE_MAX_DECOMPOSITION_LEN < r.length →
        wrap_decompose_compatibility_func result buf
          = (Except.error PyErr.IndexError, buf)) ∧
    (∀ r, result = some r → r.length ≤ HB.UNICODE_MAX_DECOMPOSITION_LEN →
        wrap_decompose_compatibility_func result buf
          = (Except.ok r.length, r ++ buf.drop r.length)) := by
  refine ⟨rfl, ?_, ?_, ?_⟩
  · intro hres
    subst hres
    rfl
  · intro r hres hlong
    subst hres
    simp only [wrap_decompose_compatibility_func]
    rw [if_pos hlong]
  · intro r hres hshort
    subst hres
    simp only [wrap_decompose_compatibility_func]
    rw [if_neg (by omega : ¬ r.length > HB.UNICODE_MAX_DECOMPOSITION_LEN),
      copySeq_write r buf (le_trans hshort hcap)]

/-- Witness for C10: a two-codepoint result is copied into the front of a
19-slot foreign buffer and 2 is returned. -/
theorem decompose_compatibility_limit_witness :
    wrap_decompose_compatibility_func (some [10, 20]) (List.replicate 19 0)
      = (Except.ok 2, [10, 20] ++ (List.replicate 19 0).drop 2) :=
  (decompose_compatibility_limit (some [10, 20]) (List.replicate 19 0)
      (by decide)).2.2.2 [10, 20] rfl (by decide)
